import Mathlib

/-!
Shallow embedding of `src/pages/Board/components/DrawToolsBox.tsx`:
the tool-selection controller of the drawing board.  The component's
reactive state (`tool` prop plus the `isOpen` and `lastKeyTime` state
hooks) is modelled as an explicit record, and each handler
(`handleToolChange`, `handleKeyDown`, `handleKeyUp`, `toggleToolBox`,
`handleClick`) as a pure state-transition function.  Times are `Int`
milliseconds (`Date.now()` values); tool identifiers are the source's
plain strings, with `none` for the component's nullable `tool` prop.
-/

/-- Embedding of JavaScript `String.prototype.toLowerCase` restricted to
ASCII, which covers every key the handler inspects. -/
def toLowerCase (s : String) : String :=
  ⟨s.data.map (fun c => if 'A' ≤ c ∧ c ≤ 'Z' then Char.ofNat (c.toNat + 32) else c)⟩

/-- Source line 19: `const DEBOUNCE_DELAY = 150; // milliseconds`. -/
def DEBOUNCE_DELAY : Int := 150

/-- Source lines 58 and 99: `event.key === ' ' || event.key === 'Space'`. -/
def isSpaceKey (key : String) : Bool :=
  key = " " || key = "Space"

/-- The component's reactive state: the `tool` prop (`string | null`,
owned by the parent and written through `setTool`), the `isOpen` panel
flag and the `lastKeyTime` debounce clock (both `useState` hooks). -/
structure DrawToolsState where
  tool : Option String
  isOpen : Bool
  lastKeyTime : Int
deriving Repr, DecidableEq

/-- State at mount: `useState(false)` for `isOpen`, `useState(0)` for
`lastKeyTime`, and whatever `tool` the parent passes in. -/
def initState (tool : Option String) : DrawToolsState :=
  { tool := tool, isOpen := false, lastKeyTime := 0 }

/-- Source lines 35-44, `handleToolChange`: if the requested tool equals
the current `tool` prop, `setTool('default')`, otherwise
`setTool(newTool)`.  Returns the string passed to `setTool`. -/
def handleToolChange (tool : Option String) (newTool : String) : String :=
  if some newTool = tool then "default" else newTool

/-- Source lines 64-94: the `switch (event.key.toLowerCase())` of
`handleKeyDown`, applied to the state after `setLastKeyTime`. -/
def dispatchShortcut (s1 : DrawToolsState) (k : String) : DrawToolsState :=
  if k = "r" then { s1 with tool := some (handleToolChange s1.tool "default") }
  else if k = "p" then { s1 with tool := some (handleToolChange s1.tool "pen") }
  else if k = "h" then { s1 with tool := some (handleToolChange s1.tool "hand") }
  else if k = "e" then { s1 with tool := some (handleToolChange s1.tool "eraser") }
  else if k = "a" then { s1 with tool := some (handleToolChange s1.tool "text") }
  else if k = "l" then { s1 with tool := some (handleToolChange s1.tool "line") }
  else if k = "s" then { s1 with tool := some (handleToolChange s1.tool "square") }
  else if k = "i" then { s1 with tool := some (handleToolChange s1.tool "circle") }
  else if k = "t" then { s1 with isOpen := !s1.isOpen }
  else s1

/-- Source lines 48-95, `handleKeyDown`: return when shortcuts are
disabled; return when `currentTime - lastKeyTime < DEBOUNCE_DELAY`;
otherwise `setLastKeyTime(currentTime)`, then either `setTool('hand')`
for the space key or dispatch on `event.key.toLowerCase()`. -/
def handleKeyDown (isKeyboardShortcutsDisable : Bool) (s : DrawToolsState)
    (key : String) (currentTime : Int) : DrawToolsState :=
  if isKeyboardShortcutsDisable then s
  else if currentTime - s.lastKeyTime < DEBOUNCE_DELAY then s
  else
    let s1 : DrawToolsState := { s with lastKeyTime := currentTime }
    if isSpaceKey key then { s1 with tool := some "hand" }
    else dispatchShortcut s1 (toLowerCase key)

/-- Source lines 97-102, `handleKeyUp`: `setTool('')` when the released
key is space, otherwise nothing.  The handler reads neither the
disabled flag nor the debounce clock. -/
def handleKeyUp (s : DrawToolsState) (key : String) : DrawToolsState :=
  if isSpaceKey key then { s with tool := some "" } else s

/-- Source lines 30-32, `toggleToolBox`: `setIsOpen((prev) => !prev)`. -/
def toggleToolBox (s : DrawToolsState) : DrawToolsState :=
  { s with isOpen := !s.isOpen }

/-- Source lines 121-123, `handleClick`: a button click routes the tool
name through `handleToolChange`. -/
def handleClick (s : DrawToolsState) (toolName : String) : DrawToolsState :=
  { s with tool := some (handleToolChange s.tool toolName) }

/-- A raw keyboard event as delivered to the two window listeners. -/
inductive BoardEvent where
  | keyDown (key : String) (time : Int)
  | keyUp (key : String)
deriving Repr, DecidableEq

/-- Dispatch of one raw event to the listener that handles it.  Only the
key-down listener consults the disabled flag, exactly as in the source. -/
def handleEvent (disabled : Bool) (s : DrawToolsState) : BoardEvent → DrawToolsState
  | BoardEvent.keyDown k t => handleKeyDown disabled s k t
  | BoardEvent.keyUp k => handleKeyUp s k

/-- Process a sequence of key-down events in arrival order. -/
def runKeyDowns (disabled : Bool) (s : DrawToolsState)
    (evs : List (String × Int)) : DrawToolsState :=
  evs.foldl (fun st ev => handleKeyDown disabled st ev.1 ev.2) s

/-- The timestamp of the most recently accepted key-down, starting from
clock value `t0`: an event is accepted when at least `DEBOUNCE_DELAY`
has elapsed since the previous accepted one. -/
def lastAcceptedTime (t0 : Int) (evs : List (String × Int)) : Int :=
  evs.foldl (fun acc ev => if DEBOUNCE_DELAY ≤ ev.2 - acc then ev.2 else acc) t0

/-- The debounce gate of `handleKeyDown`, line 52: an event passes iff
shortcuts are enabled and `currentTime - lastKeyTime < DEBOUNCE_DELAY`
fails.  It does not depend on which key was pressed. -/
def keyDownAccepted (disabled : Bool) (s : DrawToolsState) (currentTime : Int) : Bool :=
  !disabled && !(decide (currentTime - s.lastKeyTime < DEBOUNCE_DELAY))

/-- The keys the `handleKeyDown` switch recognizes (lower-cased). -/
def boundKeys : List String :=
  ["r", "p", "h", "e", "a", "l", "s", "i", "t"]

/-- A key is bound when it is the space key or its lower-casing appears
in the switch. -/
def isBoundKey (key : String) : Bool :=
  isSpaceKey key || boundKeys.contains (toLowerCase key)

theorem handleKeyDown_disabled (s : DrawToolsState) (key : String) (t : Int) :
    handleKeyDown true s key t = s := rfl

theorem handleKeyDown_rejected (s : DrawToolsState) (key : String) (t : Int)
    (h : t - s.lastKeyTime < DEBOUNCE_DELAY) :
    handleKeyDown false s key t = s := by
  unfold handleKeyDown
  rw [if_neg (by simp), if_pos h]

theorem handleKeyDown_accepted (s : DrawToolsState) (key : String) (t : Int)
    (h : DEBOUNCE_DELAY ≤ t - s.lastKeyTime) :
    handleKeyDown false s key t =
      (if isSpaceKey key then { s with lastKeyTime := t, tool := some "hand" }
       else dispatchShortcut { s with lastKeyTime := t } (toLowerCase key)) := by
  unfold handleKeyDown
  rw [if_neg (by simp), if_neg (by omega)]

theorem dispatchShortcut_lastKeyTime (s : DrawToolsState) (k : String) :
    (dispatchShortcut s k).lastKeyTime = s.lastKeyTime := by
  unfold dispatchShortcut
  split_ifs <;> rfl

theorem dispatchShortcut_isOpen (s : DrawToolsState) (k : String) (hk : k ≠ "t") :
    (dispatchShortcut s k).isOpen = s.isOpen := by
  unfold dispatchShortcut
  split_ifs <;> simp_all

theorem handleKeyDown_lastKeyTime (s : DrawToolsState) (key : String) (t : Int) :
    (handleKeyDown false s key t).lastKeyTime =
      (if DEBOUNCE_DELAY ≤ t - s.lastKeyTime then t else s.lastKeyTime) := by
  by_cases h : DEBOUNCE_DELAY ≤ t - s.lastKeyTime
  · rw [handleKeyDown_accepted s key t h, if_pos h]
    by_cases hs : isSpaceKey key = true
    · rw [if_pos hs]
    · rw [if_neg hs, dispatchShortcut_lastKeyTime]
  · rw [handleKeyDown_rejected s key t (by omega), if_neg h]

theorem runKeyDowns_lastKeyTime (s : DrawToolsState) (evs : List (String × Int)) :
    (runKeyDowns false s evs).lastKeyTime = lastAcceptedTime s.lastKeyTime evs := by
  induction evs generalizing s with
  | nil => rfl
  | cons ev rest ih =>
    have h1 : runKeyDowns false s (ev :: rest)
        = runKeyDowns false (handleKeyDown false s ev.1 ev.2) rest := rfl
    have h2 : lastAcceptedTime s.lastKeyTime (ev :: rest)
        = lastAcceptedTime
            (if DEBOUNCE_DELAY ≤ ev.2 - s.lastKeyTime then ev.2 else s.lastKeyTime) rest := rfl
    rw [h1, h2, ih, handleKeyDown_lastKeyTime]

/-- Claim C1 counterexample: with persisted tool `pen`, an accepted space
key-down writes `hand` into the single tool channel (the persisted tool
does not stay `pen`), and the subsequent space key-up leaves the empty
sentinel `''`, not `pen`. -/
theorem C1_counterexample :
    (handleKeyDown false ⟨some "pen", false, 0⟩ " " 1000).tool = some "hand"
    ∧ (handleKeyDown false ⟨some "pen", false, 0⟩ " " 1000).tool ≠ some "pen"
    ∧ (handleKeyUp (handleKeyDown false ⟨some "pen", false, 0⟩ " " 1000) " ").tool = some ""
    ∧ (handleKeyUp (handleKeyDown false ⟨some "pen", false, 0⟩ " " 1000) " ").tool ≠ some "pen" := by
  decide

/-- Claim C1 (amended): an accepted space key-down overwrites the single
tool value with `hand` (the previously persisted tool is not preserved
anywhere in the component), and the subsequent space key-up sets the tool
to the empty sentinel `''` rather than restoring the previous tool; the
panel flag is untouched throughout. -/
theorem C1_amended (s : DrawToolsState) (t : Int)
    (hacc : DEBOUNCE_DELAY ≤ t - s.lastKeyTime) :
    (handleKeyDown false s " " t).tool = some "hand"
    ∧ (handleKeyUp (handleKeyDown false s " " t) " ").tool = some ""
    ∧ (handleKeyDown false s " " t).isOpen = s.isOpen
    ∧ (handleKeyUp (handleKeyDown false s " " t) " ").isOpen = s.isOpen := by
  rw [handleKeyDown_accepted s " " t hacc]
  refine ⟨rfl, ?_, rfl, ?_⟩ <;> rfl

/-- Witness for C1_amended at tool `pen`, clock 0, key-down time 1000. -/
theorem C1_amended_witness :
    DEBOUNCE_DELAY ≤ 1000 - (⟨some "pen", false, 0⟩ : DrawToolsState).lastKeyTime
    ∧ (handleKeyDown false ⟨some "pen", false, 0⟩ " " 1000).tool = some "hand"
    ∧ (handleKeyUp (handleKeyDown false ⟨some "pen", false, 0⟩ " " 1000) " ").tool = some "" :=
  ⟨by decide, (C1_amended ⟨some "pen", false, 0⟩ 1000 (by decide)).1,
    (C1_amended ⟨some "pen", false, 0⟩ 1000 (by decide)).2.1⟩

/-- Claim C2: selecting the current tool again yields `default` (the
`none` value), selecting a different tool yields that tool; in particular
`selectTool(T, T) = default` for every T and `selectTool(default, T) = T`
for every T other than `default`. -/
theorem C2_toggle :
    (∀ C R : String,
      (R = C → handleToolChange (some C) R = "default")
      ∧ (R ≠ C → handleToolChange (some C) R = R))
    ∧ (∀ T : String, handleToolChange (some T) T = "default")
    ∧ (∀ T : String, T ≠ "default" → handleToolChange (some "default") T = T) := by
  refine ⟨fun C R => ⟨fun h => ?_, fun h => ?_⟩, fun T => ?_, fun T hT => ?_⟩
  · subst h; simp [handleToolChange]
  · simp [handleToolChange, h]
  · simp [handleToolChange]
  · simp [handleToolChange, hT]

/-- Witness for C2_toggle on concrete tools. -/
theorem C2_toggle_witness :
    handleToolChange (some "pen") "pen" = "default"
    ∧ handleToolChange (some "pen") "hand" = "hand"
    ∧ handleToolChange (some "default") "pen" = "pen" :=
  ⟨(C2_toggle.1 "pen" "pen").1 rfl, (C2_toggle.1 "pen" "hand").2 (by decide),
    C2_toggle.2.2 "pen" (by decide)⟩

/-- Claim C3 counterexample: with the disabled flag set, a space key-up
is not a no-op — the key-up listener never consults the flag and still
invokes `setTool('')`. -/
theorem C3_counterexample :
    handleEvent true ⟨some "pen", false, 0⟩ (BoardEvent.keyUp " ")
      ≠ ⟨some "pen", false, 0⟩ := by
  decide

/-- Claim C3 (amended): when the disabled flag is set every key-down is a
no-op, and a non-space key-up is a no-op; a space key-up, however,
ignores the flag and still sets the tool to the empty sentinel `''`. -/
theorem C3_amended (s : DrawToolsState) (key : String) (t : Int) :
    handleEvent true s (BoardEvent.keyDown key t) = s
    ∧ (isSpaceKey key = false → handleEvent true s (BoardEvent.keyUp key) = s)
    ∧ (isSpaceKey key = true →
        handleEvent true s (BoardEvent.keyUp key) = { s with tool := some "" }) := by
  refine ⟨rfl, fun h => ?_, fun h => ?_⟩
  · show handleKeyUp s key = s
    unfold handleKeyUp
    rw [if_neg (by simp [h])]
  · show handleKeyUp s key = { s with tool := some "" }
    unfold handleKeyUp
    rw [if_pos h]

/-- Witness for C3_amended at a non-space key and at the space key. -/
theorem C3_amended_witness :
    isSpaceKey "x" = false
    ∧ handleEvent true ⟨some "pen", true, 5⟩ (BoardEvent.keyUp "x") = ⟨some "pen", true, 5⟩
    ∧ isSpaceKey " " = true
    ∧ handleEvent true ⟨some "pen", true, 5⟩ (BoardEvent.keyUp " ") = ⟨some "", true, 5⟩ :=
  ⟨by decide, (C3_amended ⟨some "pen", true, 5⟩ "x" 0).2.1 (by decide), by decide,
    (C3_amended ⟨some "pen", true, 5⟩ " " 0).2.2 (by decide)⟩

/-- Claim C4: over any monotone sequence of key-down events, the debounce
gate accepts a further key-down iff `DEBOUNCE_DELAY` has elapsed since
the most recently accepted event (the component's clock equals
`lastAcceptedTime`, which only accepted events advance); a rejected
key-down changes nothing at all, and an accepted one stamps the shared
clock with its own time, for every key alike. -/
theorem C4_debounce_iff (s : DrawToolsState) (evs : List (String × Int))
    (key : String) (t : Int)
    (_hmono : List.Chain' (fun a b : String × Int => a.2 < b.2) evs) :
    ((runKeyDowns false s evs).lastKeyTime = lastAcceptedTime s.lastKeyTime evs)
    ∧ (keyDownAccepted false (runKeyDowns false s evs) t = true ↔
        DEBOUNCE_DELAY ≤ t - lastAcceptedTime s.lastKeyTime evs)
    ∧ (keyDownAccepted false (runKeyDowns false s evs) t = false →
        handleKeyDown false (runKeyDowns false s evs) key t = runKeyDowns false s evs)
    ∧ (keyDownAccepted false (runKeyDowns false s evs) t = true →
        (handleKeyDown false (runKeyDowns false s evs) key t).lastKeyTime = t) := by
  have hclock := runKeyDowns_lastKeyTime s evs
  refine ⟨hclock, ?_, fun hrej => ?_, fun hacc => ?_⟩
  · simp [keyDownAccepted, hclock, not_lt]
  · simp [keyDownAccepted] at hrej
    exact handleKeyDown_rejected _ _ _ hrej
  · simp [keyDownAccepted, not_lt] at hacc
    rw [handleKeyDown_lastKeyTime, if_pos hacc]

/-- Witness for C4_debounce_iff on the spec's own burst: key-downs at
1000, 1050 and 1160 ms accept the first and third only, and a fourth
key-down at 1200 ms (40 ms after the last accepted one) is rejected and
changes nothing. -/
theorem C4_debounce_iff_witness :
    List.Chain' (fun a b : String × Int => a.2 < b.2) [("p", 1000), ("e", 1050), ("h", 1160)]
    ∧ runKeyDowns false ⟨some "default", false, 0⟩ [("p", 1000), ("e", 1050), ("h", 1160)]
        = ⟨some "hand", false, 1160⟩
    ∧ keyDownAccepted false
        (runKeyDowns false ⟨some "default", false, 0⟩ [("p", 1000), ("e", 1050), ("h", 1160)]) 1200
        = false
    ∧ handleKeyDown false
        (runKeyDowns false ⟨some "default", false, 0⟩ [("p", 1000), ("e", 1050), ("h", 1160)]) "e" 1200
        = runKeyDowns false ⟨some "default", false, 0⟩ [("p", 1000), ("e", 1050), ("h", 1160)] :=
  ⟨by norm_num [List.chain'_cons, List.chain'_singleton], by decide, by decide,
    (C4_debounce_iff ⟨some "default", false, 0⟩ [("p", 1000), ("e", 1050), ("h", 1160)]
      "e" 1200 (by norm_num [List.chain'_cons, List.chain'_singleton])).2.2.1 (by decide)⟩

/-- Claim C5 counterexample: from tool `default`, an accepted key-down of
`i` selects `circle`, not `triangle`. -/
theorem C5_counterexample :
    (handleKeyDown false ⟨some "default", false, 0⟩ "i" 1000).tool = some "circle"
    ∧ (handleKeyDown false ⟨some "default", false, 0⟩ "i" 1000).tool ≠ some "triangle" := by
  decide

/-- Claim C5 (amended): an accepted key-down of `i` (case-insensitive)
invokes the Tool Selector with requested tool `circle`: the resulting
tool is `circle` when the current tool differs from it and `default`
when it equals it. -/
theorem C5_amended (s : DrawToolsState) (t : Int) (key : String)
    (hkey : key = "i" ∨ key = "I") (hacc : DEBOUNCE_DELAY ≤ t - s.lastKeyTime) :
    (handleKeyDown false s key t).tool = some (handleToolChange s.tool "circle")
    ∧ (s.tool ≠ some "circle" → (handleKeyDown false s key t).tool = some "circle")
    ∧ (s.tool = some "circle" → (handleKeyDown false s key t).tool = some "default") := by
  have hdisp : handleKeyDown false s key t
      = dispatchShortcut { s with lastKeyTime := t } "i" := by
    rcases hkey with h | h <;>
      · subst h
        rw [handleKeyDown_accepted s _ t hacc, if_neg (by decide)]
        rfl
  have hi : handleKeyDown false s key t
      = { s with lastKeyTime := t, tool := some (handleToolChange s.tool "circle") } := by
    rw [hdisp]
    simp [dispatchShortcut]
  refine ⟨?_, fun hne => ?_, fun heq => ?_⟩
  · rw [hi]
  · rw [hi]
    show some (handleToolChange s.tool "circle") = some "circle"
    unfold handleToolChange
    rw [if_neg (fun h => hne h.symm)]
  · rw [hi]
    show some (handleToolChange s.tool "circle") = some "default"
    unfold handleToolChange
    rw [if_pos heq.symm]

/-- Witness for C5_amended at tool `default`, key `I`, time 1000. -/
theorem C5_amended_witness :
    ("I" = "i" ∨ "I" = "I")
    ∧ DEBOUNCE_DELAY ≤ 1000 - (⟨some "default", false, 0⟩ : DrawToolsState).lastKeyTime
    ∧ (some "default" : Option String) ≠ some "circle"
    ∧ (handleKeyDown false ⟨some "default", false, 0⟩ "I" 1000).tool = some "circle" :=
  ⟨Or.inr rfl, by decide, by decide,
    (C5_amended ⟨some "default", false, 0⟩ 1000 "I" (Or.inr rfl) (by decide)).2.1 (by decide)⟩

/-- Claim C6 counterexample: in a state with no override active (tool is
`eraser`, space never held), a space key-up is not a no-op: the tool
callback fires with `''` and the persisted tool is altered. -/
theorem C6_counterexample :
    handleKeyUp ⟨some "eraser", false, 0⟩ "Space" ≠ ⟨some "eraser", false, 0⟩
    ∧ (handleKeyUp ⟨some "eraser", false, 0⟩ "Space").tool = some "" := by
  decide

/-- Claim C6 (amended): a space key-up always invokes `setTool('')`,
whether or not space was ever recorded as held — the handler is total
(never a fault) and leaves the clock and panel flag alone, but it sets
the tool to the empty sentinel instead of leaving it unchanged; a
non-space key-up is a genuine no-op. -/
theorem C6_amended (s : DrawToolsState) (key : String) :
    (isSpaceKey key = true → handleKeyUp s key = { s with tool := some "" })
    ∧ (isSpaceKey key = false → handleKeyUp s key = s)
    ∧ (handleKeyUp s key).isOpen = s.isOpen
    ∧ (handleKeyUp s key).lastKeyTime = s.lastKeyTime := by
  unfold handleKeyUp
  by_cases h : isSpaceKey key = true
  · rw [if_pos h]
    exact ⟨fun _ => rfl, fun hf => absurd h (by simp [hf]), rfl, rfl⟩
  · rw [if_neg h]
    exact ⟨fun ht => absurd ht h, fun _ => rfl, rfl, rfl⟩

/-- Witness for C6_amended at the space key and at a letter key. -/
theorem C6_amended_witness :
    isSpaceKey " " = true
    ∧ handleKeyUp ⟨some "eraser", true, 7⟩ " " = ⟨some "", true, 7⟩
    ∧ isSpaceKey "e" = false
    ∧ handleKeyUp ⟨some "eraser", true, 7⟩ "e" = ⟨some "eraser", true, 7⟩ :=
  ⟨by decide, (C6_amended ⟨some "eraser", true, 7⟩ " ").1 (by decide), by decide,
    (C6_amended ⟨some "eraser", true, 7⟩ "e").2.1 (by decide)⟩

theorem dispatchShortcut_unbound (s : DrawToolsState) (k : String)
    (hk : boundKeys.contains k = false) : dispatchShortcut s k = s := by
  simp [boundKeys] at hk
  unfold dispatchShortcut
  split_ifs <;> simp_all

/-- Claim C7: a space key-up is processed unconditionally — its effect
does not depend on the debounce clock at all — and a space key-up issued
immediately after a debounce-suppressed space key-down still clears any
active override by writing the empty sentinel over the tool. -/
theorem C7_keyup_not_debounced (s : DrawToolsState) (t : Int) (key : String)
    (hk : isSpaceKey key = true) :
    handleKeyUp s key = { s with tool := some "" }
    ∧ (t - s.lastKeyTime < DEBOUNCE_DELAY →
        handleKeyUp (handleKeyDown false s key t) key = { s with tool := some "" }) := by
  have h1 : handleKeyUp s key = { s with tool := some "" } := by
    unfold handleKeyUp
    rw [if_pos hk]
  refine ⟨h1, fun hrej => ?_⟩
  rw [handleKeyDown_rejected s key t hrej, h1]

/-- Witness for C7_keyup_not_debounced: a space key-down at 2050 with
clock 2000 is suppressed, yet the following space key-up still fires. -/
theorem C7_keyup_not_debounced_witness :
    isSpaceKey " " = true
    ∧ (2050 - (⟨some "hand", true, 2000⟩ : DrawToolsState).lastKeyTime < DEBOUNCE_DELAY)
    ∧ handleKeyUp (handleKeyDown false ⟨some "hand", true, 2000⟩ " " 2050) " "
        = ⟨some "", true, 2000⟩ :=
  ⟨by decide, by decide,
    (C7_keyup_not_debounced ⟨some "hand", true, 2000⟩ 2050 " " (by decide)).2 (by decide)⟩

/-- Claim C8 counterexample: an unbound key (`x`) that passes the
debounce gate still stamps the debounce clock — the last-key timestamp
moves from 0 to 1000, so the event is not free of state change. -/
theorem C8_counterexample :
    isBoundKey "x" = false
    ∧ (handleKeyDown false ⟨some "pen", false, 0⟩ "x" 1000).lastKeyTime = 1000
    ∧ (⟨some "pen", false, 0⟩ : DrawToolsState).lastKeyTime ≠ 1000 := by
  decide

/-- Claim C8 (amended): a key-down of an unbound key never changes the
tool or the panel flag, and when it arrives inside the debounce window it
changes nothing at all; but when it passes the gate it updates the
last-key timestamp to its own time, consuming the debounce window. -/
theorem C8_amended (s : DrawToolsState) (key : String) (t : Int)
    (hk : isBoundKey key = false) :
    ((handleKeyDown false s key t).tool = s.tool)
    ∧ ((handleKeyDown false s key t).isOpen = s.isOpen)
    ∧ (t - s.lastKeyTime < DEBOUNCE_DELAY → handleKeyDown false s key t = s)
    ∧ (DEBOUNCE_DELAY ≤ t - s.lastKeyTime →
        handleKeyDown false s key t = { s with lastKeyTime := t }) := by
  have hor : isSpaceKey key = false ∧ boundKeys.contains (toLowerCase key) = false := by
    simpa [isBoundKey] using hk
  obtain ⟨hsp, hcont⟩ := hor
  have hcase : handleKeyDown false s key t = s
      ∨ handleKeyDown false s key t = { s with lastKeyTime := t } := by
    by_cases hacc : DEBOUNCE_DELAY ≤ t - s.lastKeyTime
    · right
      rw [handleKeyDown_accepted s key t hacc, if_neg (by simp [hsp])]
      exact dispatchShortcut_unbound _ _ hcont
    · left
      exact handleKeyDown_rejected _ _ _ (by omega)
  refine ⟨?_, ?_, fun hrej => handleKeyDown_rejected _ _ _ hrej, fun hacc => ?_⟩
  · rcases hcase with h | h <;> rw [h]
  · rcases hcase with h | h <;> rw [h]
  · rw [handleKeyDown_accepted s key t hacc, if_neg (by simp [hsp])]
    exact dispatchShortcut_unbound _ _ hcont

/-- Witness for C8_amended with the unbound key `]`: suppressed at 120,
accepted at 400 where only the clock moves. -/
theorem C8_amended_witness :
    isBoundKey "]" = false
    ∧ (120 - (100 : Int) < DEBOUNCE_DELAY)
    ∧ handleKeyDown false ⟨some "line", true, 100⟩ "]" 120 = ⟨some "line", true, 100⟩
    ∧ (DEBOUNCE_DELAY ≤ 400 - (100 : Int))
    ∧ handleKeyDown false ⟨some "line", true, 100⟩ "]" 400 = ⟨some "line", true, 400⟩ :=
  ⟨by decide, by decide,
    (C8_amended ⟨some "line", true, 100⟩ "]" 120 (by decide)).2.2.1 (by decide), by decide,
    (C8_amended ⟨some "line", true, 100⟩ "]" 400 (by decide)).2.2.2 (by decide)⟩

/-- Claim C9: an accepted space key-down bypasses the toggle rule and
writes `hand` directly, so with the tool already `hand` it stays `hand`,
whereas an accepted `h` key-down in the same state routes through the
Tool Selector and reverts the tool to `default`. -/
theorem C9_space_bypasses_toggle (s : DrawToolsState) (t : Int) (key : String)
    (hk : isSpaceKey key = true) (hacc : DEBOUNCE_DELAY ≤ t - s.lastKeyTime) :
    (handleKeyDown false s key t).tool = some "hand"
    ∧ (s.tool = some "hand" → (handleKeyDown false s key t).tool = some "hand")
    ∧ (s.tool = some "hand" → (handleKeyDown false s "h" t).tool = some "default") := by
  have h1 : (handleKeyDown false s key t).tool = some "hand" := by
    rw [handleKeyDown_accepted s key t hacc, if_pos hk]
  refine ⟨h1, fun _ => h1, fun hh => ?_⟩
  rw [handleKeyDown_accepted s "h" t hacc, if_neg (by decide)]
  have hlow : toLowerCase "h" = "h" := rfl
  have h2 : (dispatchShortcut { s with lastKeyTime := t } "h").tool
      = some (handleToolChange s.tool "hand") := by
    simp [dispatchShortcut]
  rw [hlow, h2, hh]
  simp [handleToolChange]

/-- Witness for C9_space_bypasses_toggle with the tool already `hand`. -/
theorem C9_space_bypasses_toggle_witness :
    isSpaceKey " " = true
    ∧ DEBOUNCE_DELAY ≤ 300 - (⟨some "hand", false, 0⟩ : DrawToolsState).lastKeyTime
    ∧ (handleKeyDown false ⟨some "hand", false, 0⟩ " " 300).tool = some "hand"
    ∧ (handleKeyDown false ⟨some "hand", false, 0⟩ "h" 300).tool = some "default" :=
  ⟨by decide, by decide,
    (C9_space_bypasses_toggle ⟨some "hand", false, 0⟩ 300 " " (by decide) (by decide)).1,
    (C9_space_bypasses_toggle ⟨some "hand", false, 0⟩ 300 " " (by decide) (by decide)).2.2 rfl⟩

/-- Claim C10: the panel flag is false at mount and is negated exactly by
the accepted `t` key-down intent and the disclosure-button toggle; every
other key-down, every key-up, and every tool-selection click leaves it
unchanged. -/
theorem C10_panel_flag (tool0 : Option String) (s : DrawToolsState) (key : String)
    (t : Int) (toolName : String) :
    (initState tool0).isOpen = false
    ∧ (toLowerCase key ≠ "t" → (handleKeyDown false s key t).isOpen = s.isOpen)
    ∧ (toLowerCase key = "t" → DEBOUNCE_DELAY ≤ t - s.lastKeyTime →
        (handleKeyDown false s key t).isOpen = !s.isOpen)
    ∧ ((handleKeyUp s key).isOpen = s.isOpen)
    ∧ ((handleClick s toolName).isOpen = s.isOpen)
    ∧ ((toggleToolBox s).isOpen = !s.isOpen) := by
  refine ⟨rfl, fun hkt => ?_, fun hkt hacc => ?_, ?_, rfl, rfl⟩
  · by_cases hacc : DEBOUNCE_DELAY ≤ t - s.lastKeyTime
    · rw [handleKeyDown_accepted s key t hacc]
      by_cases hs : isSpaceKey key = true
      · rw [if_pos hs]
      · rw [if_neg hs]
        exact dispatchShortcut_isOpen _ _ hkt
    · rw [handleKeyDown_rejected s key t (by omega)]
  · have hs : isSpaceKey key = false := by
      cases hsp : isSpaceKey key
      · rfl
      · have hme : key = " " ∨ key = "Space" := by simpa [isSpaceKey] using hsp
        rcases hme with h | h <;> subst h <;> exact absurd hkt (by decide)
    rw [handleKeyDown_accepted s key t hacc, if_neg (by simp [hs]), hkt]
    simp [dispatchShortcut]
  · unfold handleKeyUp
    split_ifs <;> rfl

/-- Witness for C10_panel_flag: `p` leaves the closed panel closed, `T`
opens it. -/
theorem C10_panel_flag_witness :
    (initState (some "pen")).isOpen = false
    ∧ toLowerCase "p" ≠ "t"
    ∧ (handleKeyDown false ⟨some "pen", false, 0⟩ "p" 200).isOpen = false
    ∧ toLowerCase "T" = "t"
    ∧ DEBOUNCE_DELAY ≤ 200 - (⟨some "pen", false, 0⟩ : DrawToolsState).lastKeyTime
    ∧ (handleKeyDown false ⟨some "pen", false, 0⟩ "T" 200).isOpen = true :=
  ⟨(C10_panel_flag (some "pen") ⟨some "pen", false, 0⟩ "p" 200 "pen").1, by decide,
    (C10_panel_flag (some "pen") ⟨some "pen", false, 0⟩ "p" 200 "pen").2.1 (by decide),
    by decide, by decide,
    (C10_panel_flag (some "pen") ⟨some "pen", false, 0⟩ "T" 200 "pen").2.2.1 (by decide) (by decide)⟩
